import Mathlib

/-!
Verification of the task lifecycle and fan-out core of the song-generation
A2A agent.  TypeScript sources are embedded shallowly: JS objects become
structures, `undefined`-able fields become `Option`, timestamps become
abstract `Nat` ticks, and the stateful store round-trips become explicit
record passing.  `src/core/taskStore.ts`, `src/core/taskQueue.ts` and
`src/services/pushNotificationService.ts` are not among the provided
sources; the few facts needed about them are modelled from the
specification and marked as such.
-/

namespace SongAgent

/-- Task lifecycle states (TaskState, src/interfaces/a2a). -/
inductive TaskState
  | SUBMITTED
  | WORKING
  | INPUT_REQUIRED
  | COMPLETED
  | FAILED
  | CANCELLED
deriving DecidableEq

/-- A message part.  In the source `type` is a plain string
("text" / "audio" / "file" / "data"); payload fields other than `text`
are carried opaquely and never inspected by the modelled code. -/
structure MessagePart where
  type : String
  text : Option String
  audioUrl : Option String
  data : Option String
deriving DecidableEq

/-- A message: role plus parts.  `parts` may be absent in a malformed
request, hence the `Option`. -/
structure Message where
  role : String
  parts : Option (List MessagePart)
deriving DecidableEq

/-- TaskStatus: state, timestamp (abstract tick) and optional message. -/
structure TaskStatus where
  state : TaskState
  timestamp : Nat
  message : Option Message
deriving DecidableEq

/-- A task artifact: parts, presentation index and optional append flag.
The free-form result metadata is not inspected by the modelled code. -/
structure TaskArtifact where
  parts : List MessagePart
  index : Nat
  append : Option Bool
deriving DecidableEq

/-- A task record as stored by the TaskStore.  The free-form `metadata`
input is consumed only by the external generation pipeline and is not
modelled. -/
structure Task where
  id : String
  sessionId : Option String
  status : TaskStatus
  history : Option (List TaskStatus)
  message : Option Message
  artifacts : Option (List TaskArtifact)
deriving DecidableEq

/-- `parts.find(p => p.type === "text")?.text`: the text of the first
text part, `none` when there is no text part or it has no text field. -/
def textOf (parts : List MessagePart) : Option String :=
  (parts.find? (fun p => p.type == "text")).bind MessagePart.text

/-- The `isProgressChanged` computation of TaskProcessor.updateTaskStatus
(src/src/core/taskProcessor.ts lines 143-157): true only when the new
message, the last history entry, and both their parts are all present and
the two text extracts differ. -/
def progressChangedB (message : Option Message) (lastProgress : Option TaskStatus) : Bool :=
  match message, lastProgress with
  | some m, some lp =>
    match m.parts, lp.message with
    | some mparts, some lpm =>
      match lpm.parts with
      | some lpparts => textOf lpparts != textOf mparts
      | none => false
    | _, _ => false
  | _, _ => false

/-- TaskProcessor.updateTaskStatus (src/src/core/taskProcessor.ts lines
121-186) as a pure function of the current stored record: returns the
record written to the store, or `none` when the dedup check
(`!isStateChanged && !isProgressChanged`) suppresses the write.  The new
status is appended to history and also becomes the `status` field. -/
def updateTaskStatus (currentTask : Task) (state : TaskState)
    (message : Option Message) (artifacts : Option (List TaskArtifact))
    (timestamp : Nat) : Option Task :=
  if currentTask.status.state == state &&
      !(progressChangedB message (currentTask.history.getD []).getLast?) then
    none
  else
    some { currentTask with
            status := { state := state, timestamp := timestamp, message := message }
            history := some (currentTask.history.getD [] ++
              [{ state := state, timestamp := timestamp, message := message }])
            artifacts := artifacts.or currentTask.artifacts }

/-- A2AController.updateTaskStatus (src/unnamed/part_001 lines 483-524) as
a pure function of the found record: the PREVIOUS status is pushed onto
history and the new status replaces the `status` field; the new status is
not appended to history. -/
def ctrlUpdateTaskStatus (task : Task) (state : TaskState)
    (message : Option Message) (timestamp : Nat) : Task :=
  let newStatus : TaskStatus :=
    { state := state, timestamp := timestamp, message := message }
  let history := task.history.getD [] ++ [task.status]
  { task with status := newStatus, history := some history }

/-- The store write performed by A2AController.cancelTask (src/unnamed/
part_001 lines 385-416) when the queue accepts the cancellation: the
status state and timestamp are replaced in place; history is untouched
and the status message is kept. -/
def cancelTaskWrite (task : Task) (timestamp : Nat) : Task :=
  { task with
      status := { task.status with
                    state := TaskState.CANCELLED, timestamp := timestamp } }

/-- Whether a state is terminal, as tested by the store listener
(src/unnamed/part_001 lines 108-111) and by
StreamingService.isTaskInFinalState (streamingService.ts lines 301-307). -/
def isFinalState (s : TaskState) : Bool :=
  s == TaskState.COMPLETED || s == TaskState.CANCELLED || s == TaskState.FAILED

/-- Push notification event types (PushNotificationEventType). -/
inductive PushEventType
  | STATUS_UPDATE
  | COMPLETION
  | ARTIFACT
  | ERROR
deriving DecidableEq

/-- Payload of a push notification event: the non-terminal branch fills
`status`, the terminal branch fills `finalStatus`; both carry the task's
artifacts. -/
structure PushEventData where
  status : Option TaskStatus
  finalStatus : Option TaskStatus
  artifacts : Option (List TaskArtifact)
deriving DecidableEq

/-- A push notification event envelope. -/
structure PushEvent where
  type : PushEventType
  taskId : String
  timestamp : Nat
  data : PushEventData
deriving DecidableEq

/-- The single push event built by the task-store status listener
registered in A2AController.setupTaskStoreListeners (src/unnamed/part_001
lines 105-140): a completion event when the new state is terminal, a
status_update event otherwise — never both. -/
def storeListenerEvent (task : Task) (ts : Nat) : PushEvent :=
  if isFinalState task.status.state then
    { type := PushEventType.COMPLETION
      taskId := task.id
      timestamp := ts
      data := { status := none
                finalStatus := some task.status
                artifacts := task.artifacts } }
  else
    { type := PushEventType.STATUS_UPDATE
      taskId := task.id
      timestamp := ts
      data := { status := some task.status
                finalStatus := none
                artifacts := task.artifacts } }

/-- Modelled from the spec: PushNotificationService (its source file
src/services/pushNotificationService.ts is not among the provided
sources).  Per the spec it keeps at most one webhook registration per
task id ("registers exactly one callback target per task") and `notify`
delivers the event to the callback registered for the event's task id,
if any.  Registrations are a list of (task id, callback url) pairs. -/
def webhookDeliveries (regs : List (String × String)) (e : PushEvent) :
    List (String × PushEvent) :=
  match regs.find? (fun r => r.fst == e.taskId) with
  | some r => [(r.snd, e)]
  | none => []

/-- An artifact event as built by StreamingService.sendArtifacts
(src/src/services/streamingService.ts lines 230-239). -/
structure ArtifactEvent where
  id : String
  parts : List MessagePart
  index : Nat
  append : Bool
  lastChunk : Bool
deriving DecidableEq

/-- The artifact events StreamingService.sendArtifacts builds for one
batch (streamingService.ts lines 226-245): one event per artifact; the
`lastChunk` flag compares the artifact's own `index` FIELD with
`artifacts.length - 1`, not the artifact's position in the batch. -/
def artifactEventsFor (taskId : String) (artifacts : List TaskArtifact) :
    List ArtifactEvent :=
  artifacts.map (fun a =>
    { id := taskId
      parts := a.parts
      index := a.index
      append := a.append.getD false
      lastChunk := a.index == artifacts.length - 1 })

/-- The double loop of sendArtifacts (`artifacts.forEach` outside,
`connections.forEach` inside): every artifact event is written to every
subscribed channel.  Channels are modelled by names; the JS `Set` of
connections is a duplicate-free list. -/
def sendArtifactsDeliveries (conns : List String) (taskId : String)
    (artifacts : List TaskArtifact) : List (String × ArtifactEvent) :=
  (artifactEventsFor taskId artifacts).flatMap (fun e => conns.map (fun c => (c, e)))

/-- An SSE error event as built by StreamingService.notifyError
(streamingService.ts lines 205-212). -/
structure ErrorEvent where
  id : String
  code : Int
  message : String
deriving DecidableEq

/-- StreamingService.notifyError (streamingService.ts lines 196-217):
looks up the connection set for the task id and writes the error event to
every channel in it; when no entry exists it returns without writing
anything.  The connections map is a list of (task id, channel names). -/
def notifyErrorDeliveries (conns : List (String × List String))
    (taskId : String) (code : Int) (msg : String) : List (String × ErrorEvent) :=
  match conns.find? (fun entry => entry.fst == taskId) with
  | none => []
  | some entry =>
      entry.snd.map (fun c => (c, { id := taskId, code := code, message := msg }))

/-- The SSE error path of sendTaskSubscribe for an invalid envelope
(src/unnamed/part_001 lines 566-578): SSE headers are written on the
fresh response, notifyError is invoked with `params?.id` (or "unknown"),
and the stream is ended.  The events the requester actually receives are
the notifyError deliveries addressed to its own channel — which was never
subscribed. -/
def sseInvalidEnvelopeEvents (conns : List (String × List String))
    (paramsId : Option String) (requester : String) : List ErrorEvent :=
  ((notifyErrorDeliveries conns (paramsId.getD "unknown") (-32600)
      "Invalid JSON-RPC 2.0 request").filter
    (fun d => d.fst == requester)).map Prod.snd

/-- JS String.prototype.trim, modelled structurally on the character
list (drop whitespace from both ends) so that concrete evaluation
reduces in the kernel; on the ASCII inputs this code handles it agrees
with the builtin trim. -/
def jsTrim (s : String) : String :=
  String.mk (((s.data.dropWhile Char.isWhitespace).reverse.dropWhile
    Char.isWhitespace).reverse)

/-- Whether a part is a text part with non-empty trimmed content: the
filter predicate of TaskProcessor.validateTask (taskProcessor.ts lines
105-110). -/
def isNonEmptyTextPart (p : MessagePart) : Bool :=
  p.type == "text" &&
    (match p.text with
     | some t => decide (0 < (jsTrim t).length)
     | none => false)

/-- TaskProcessor.validateTask (taskProcessor.ts lines 100-115): throws
when the message or its parts are missing, or when no part is a text part
with non-empty trimmed content. -/
def validateTask (task : Task) : Except String Unit :=
  match task.message with
  | none => Except.error "Task message is empty or invalid"
  | some m =>
    match m.parts with
    | none => Except.error "Task message is empty or invalid"
    | some parts =>
      if (parts.filter isNonEmptyTextPart).length = 0 then
        Except.error "Task must contain a non-empty text prompt"
      else
        Except.ok ()

/-- The prompt string handleTask extracts (part_001 lines 909-910): the
text of the first part whose type is "text", defaulting to "". -/
def taskIdea (task : Task) : String :=
  ((((task.message.bind Message.parts).getD []).find?
      (fun p => p.type == "text")).bind MessagePart.text).getD ""

/-- A yield of the handleTask generator (TaskYieldUpdate). -/
structure TaskYieldUpdate where
  state : TaskState
  message : Option Message
  artifacts : Option (List TaskArtifact)
deriving DecidableEq

/-- An agent message with a single text part, as built by
SongGenerationController.createTextMessage and by the literal updates of
validatePrompt. -/
def agentTextMessage (text : String) : Message :=
  { role := "agent"
    parts := some [{ type := "text", text := some text,
                     audioUrl := none, data := none }] }

/-- SongGenerationController.validatePrompt (part_001 lines 862-894):
an INPUT_REQUIRED update asking for a prompt when the prompt is empty or
whitespace, an INPUT_REQUIRED update asking for more detail when the
trimmed prompt is shorter than 10 characters, `none` when valid. -/
def validatePrompt (prompt : String) : Option TaskYieldUpdate :=
  if jsTrim prompt == "" then
    some { state := TaskState.INPUT_REQUIRED
           message := some (agentTextMessage
             "Please provide a prompt for the song. No prompt was provided.")
           artifacts := none }
  else if (jsTrim prompt).length < 10 then
    some { state := TaskState.INPUT_REQUIRED
           message := some (agentTextMessage
             "Please provide a more detailed description of the song. The current prompt is too short.")
           artifacts := none }
  else
    none

/-- The yields of SongGenerationController.handleTask (part_001 lines
904-1127) up to its first external call: when prompt validation fails the
generator yields exactly the validation update and returns.  The path
after successful validation invokes the external metadata and audio
clients and is not modelled; `none` marks it. -/
def handleTaskYields (task : Task) : Option (List TaskYieldUpdate) :=
  match validatePrompt (taskIdea task) with
  | some u => some [u]
  | none => none

/-- The loop of TaskProcessor.processTask (taskProcessor.ts lines 55-70):
each yield goes through updateTaskStatus against the current stored
record; consumption stops after a COMPLETED or FAILED yield.  Returns the
list of records actually written to the store. -/
def applyYields (stored : Task) (ys : List TaskYieldUpdate) (ts : Nat) :
    List Task :=
  match ys with
  | [] => []
  | u :: rest =>
    let step := updateTaskStatus stored u.state u.message u.artifacts ts
    let next := step.getD stored
    let written := match step with
                   | some t' => [t']
                   | none => []
    if u.state = TaskState.COMPLETED ∨ u.state = TaskState.FAILED then
      written
    else
      written ++ applyYields next rest ts

/-- The error message built in the catch block of processTask
(taskProcessor.ts lines 78-89). -/
def processErrorMessage (e : String) : Message := agentTextMessage e

/-- TaskProcessor.processTask (taskProcessor.ts lines 38-94) as the
sequence of records written to the store for one task: validateTask first
(a throw lands in the catch block, which writes one FAILED status and
rethrows), then the WORKING update, then one update per generator yield.
`none` marks the unmodelled external path after successful prompt
validation. -/
def processTaskWrites (stored : Task) (ts : Nat) : Option (List Task) :=
  match validateTask stored with
  | Except.error e =>
    match updateTaskStatus stored TaskState.FAILED (some (processErrorMessage e)) none ts with
    | some t' => some [t']
    | none => some []
  | Except.ok _ =>
    let workingStep := updateTaskStatus stored TaskState.WORKING none none ts
    let afterWorking := workingStep.getD stored
    let w0 := match workingStep with
              | some t' => [t']
              | none => []
    match handleTaskYields stored with
    | none => none
    | some ys => some (w0 ++ applyYields afterWorking ys ts)

/-- The text carried by an update message, through the same chain the
dedup check reads it: message → parts → first text part → text. -/
def updMsgText (m : Option Message) : Option String :=
  (m.bind Message.parts).bind textOf

/-- The text of the last history entry's message of a task, as the dedup
check of updateTaskStatus reads it. -/
def lastHistoryText (ct : Task) : Option String :=
  (((ct.history.getD []).getLast?.bind TaskStatus.message).bind Message.parts).bind textOf

/-- The fan-out triggered by one processor update: store listeners run
only when updateTask was actually called, i.e. when the dedup check let
the write through (taskStore.updateTask notifies listeners after a
successful write, per the spec's listener contract).  Returns the push
event list and the streamed artifact deliveries. -/
def processorUpdateEvents (conns : List String) (ct : Task)
    (state : TaskState) (m : Option Message)
    (arts : Option (List TaskArtifact)) (ts : Nat) :
    List PushEvent × List (String × ArtifactEvent) :=
  match updateTaskStatus ct state m arts ts with
  | none => ([], [])
  | some t' =>
      ([storeListenerEvent t' ts],
       sendArtifactsDeliveries conns t'.id (t'.artifacts.getD []))

/-- A JSON-RPC id value: null, a number or a string (absence is modelled
by `Option` at the use site). -/
inductive RpcId
  | null
  | num (n : Int)
  | str (s : String)
deriving DecidableEq

/-- JS truthiness of an id value: null, 0 and "" are falsy. -/
def RpcId.truthy : RpcId → Bool
  | RpcId.null => false
  | RpcId.num n => n != 0
  | RpcId.str s => s != ""

/-- JS truthiness of a possibly absent id. -/
def idTruthy : Option RpcId → Bool
  | none => false
  | some i => i.truthy

/-- JS truthiness of a possibly absent string field. -/
def strTruthy : Option String → Bool
  | none => false
  | some s => s != ""

/-- The `params.notification` object of sendTaskSubscribe: delivery mode
and webhook url (the requested event kinds are carried opaquely). -/
structure SubscriptionChoice where
  mode : Option String
  url : Option String
deriving DecidableEq

/-- The `params` object of tasks/send and tasks/sendSubscribe.
`taskId` is the client-supplied `params.id` used only in the SSE error
path; sessionId, metadata and acceptedOutputModes are carried opaquely. -/
structure TaskSendParams where
  taskId : Option String
  sessionId : Option String
  message : Option Message
  subscription : Option SubscriptionChoice
deriving DecidableEq

/-- A JSON-RPC 2.0 request envelope with possibly missing fields. -/
structure JsonRpcRequest where
  jsonrpc : Option String
  id : Option RpcId
  method : Option String
  params : Option TaskSendParams
deriving DecidableEq

/-- The envelope guard shared by sendTask and sendTaskSubscribe
(part_001 lines 308 and 560): `jsonrpc` must be exactly "2.0" and id,
method and params must all be truthy. -/
def envelopeOk (r : JsonRpcRequest) : Bool :=
  r.jsonrpc == some "2.0" && idTruthy r.id && strTruthy r.method && r.params.isSome

/-- The id echoed in the -32600 response body: the JS expression is
the id when truthy, otherwise null. -/
def echoId (i : Option RpcId) : Option RpcId :=
  match i with
  | some x => if x.truthy then some x else none
  | none => none

/-- The parameter check of sendTask and sendTaskSubscribe (part_001 lines
317-323 and 600-606): only the FIRST element of message.parts is
examined — it must carry a text field with non-empty trimmed content; its
`type` is never checked. -/
def firstPartTextValid (message : Option Message) : Bool :=
  match message with
  | none => false
  | some m =>
    match m.parts with
    | none => false
    | some [] => false
    | some (p :: _) =>
      match p.text with
      | none => false
      | some t => !(jsTrim t == "")

/-- The acceptance condition exactly as the specification words it, for
comparison with the implementation: message.parts contains at least one
text part with non-empty trimmed content. -/
def specAcceptsMessage (message : Option Message) : Bool :=
  match message with
  | none => false
  | some m => ((m.parts.getD []).filter isNonEmptyTextPart).length != 0

/-- The store, queue and fan-out calls the controller performs while
handling a request. -/
inductive Action
  | storeCreate (taskId : String)
  | enqueue (taskId : String)
  | registerWebhook (taskId : String) (url : String)
  | subscribeSse (taskId : String)
deriving DecidableEq

/-- Outcome of tasks/send. -/
inductive SendOutcome
  | invalidEnvelope (echoedId : Option RpcId)
  | invalidParams
  | created (taskId : String)
deriving DecidableEq

/-- A2AController.sendTask (part_001 lines 305-352): outcome plus the
store and queue calls performed.  On success createTask (lines 422-459)
stores the fresh record and then enqueues it; on either rejection no task
is created and nothing is written. -/
def sendTask (r : JsonRpcRequest) (newId : String) : SendOutcome × List Action :=
  if !(envelopeOk r) then
    (SendOutcome.invalidEnvelope (echoId r.id), [])
  else
    match r.params with
    | none => (SendOutcome.invalidEnvelope (echoId r.id), [])
    | some p =>
      if !(firstPartTextValid p.message) then
        (SendOutcome.invalidParams, [])
      else
        (SendOutcome.created newId,
         [Action.storeCreate newId, Action.enqueue newId])

/-- Outcome of tasks/sendSubscribe (the JSON-response variants; the SSE
error path is modelled separately by sseInvalidEnvelopeEvents). -/
inductive SubOutcome
  | invalidEnvelope (echoedId : Option RpcId)
  | invalidParams (echoedId : Option RpcId)
  | webhookAck (taskId : String)
  | sseOpen (taskId : String)
deriving DecidableEq

/-- A2AController.sendTaskSubscribe (part_001 lines 554-700): outcome
plus the store, queue and fan-out calls performed.  The mode defaults to
"sse" when `notification?.mode` is falsy; the webhook branch also needs a
truthy url.  In SSE mode the task is enqueued a second time after the
stream subscription (line 669), in addition to the enqueue inside
createTask (line 447); the webhook branch returns before that line. -/
def sendTaskSubscribe (r : JsonRpcRequest) (newId : String) :
    SubOutcome × List Action :=
  if !(envelopeOk r) then
    (SubOutcome.invalidEnvelope (echoId r.id), [])
  else
    match r.params with
    | none => (SubOutcome.invalidEnvelope (echoId r.id), [])
    | some p =>
      if !(firstPartTextValid p.message) then
        (SubOutcome.invalidParams r.id, [])
      else
        let createActs := [Action.storeCreate newId, Action.enqueue newId]
        let mode := match p.subscription.bind SubscriptionChoice.mode with
                    | some m => if m == "" then "sse" else m
                    | none => "sse"
        let urlOpt := p.subscription.bind SubscriptionChoice.url
        if mode == "webhook" && strTruthy urlOpt then
          (SubOutcome.webhookAck newId,
           createActs ++ [Action.registerWebhook newId (urlOpt.getD "")])
        else
          (SubOutcome.sseOpen newId,
           createActs ++ [Action.subscribeSse newId, Action.enqueue newId])

/-- Helper: the record written by a successful TaskProcessor
updateTaskStatus is the current record with the new status set, the new
status appended to history, and artifacts replaced when supplied. -/
theorem updateTaskStatus_some (ct : Task) (state : TaskState)
    (m : Option Message) (arts : Option (List TaskArtifact)) (ts : Nat)
    (t' : Task) (h : updateTaskStatus ct state m arts ts = some t') :
    t' = { ct with
            status := { state := state, timestamp := ts, message := m }
            history := some (ct.history.getD [] ++
              [{ state := state, timestamp := ts, message := m }])
            artifacts := arts.or ct.artifacts } := by
  unfold updateTaskStatus at h
  split at h
  · exact Option.noConfusion h
  · exact (Option.some.inj h).symm

/-- C1, counterexample: after A2AController.updateTaskStatus the stored
status does NOT equal the last element of history — the controller pushes
the previous status onto history and never appends the new one.  Concrete
input: a SUBMITTED task updated to WORKING. -/
theorem c1_status_not_history_tail :
    let ct : Task :=
      { id := "t", sessionId := none
        status := { state := TaskState.SUBMITTED, timestamp := 0, message := none }
        history := some [{ state := TaskState.SUBMITTED, timestamp := 0, message := none }]
        message := none, artifacts := none }
    let t := ctrlUpdateTaskStatus ct TaskState.WORKING none 1
    (t.history.getD []).getLast? = some ct.status ∧
      t.status.state = TaskState.WORKING ∧
      (t.history.getD []).getLast? ≠ some t.status := by
  decide

/-- C1, amended: all three update operations keep history append-only
(the written history is the old history plus exactly one entry, or, for
the cancel write, the old history unchanged), but `status = last element
of history` holds only for the processor's updateTaskStatus; after the
controller's updateTaskStatus the last history element is the PREVIOUS
status, and the cancel write changes status without touching history. -/
theorem c1_history_append_amended (ct : Task) (state : TaskState)
    (m : Option Message) (arts : Option (List TaskArtifact)) (ts : Nat)
    (t' : Task) (h : updateTaskStatus ct state m arts ts = some t') :
    (t'.history = some (ct.history.getD [] ++ [t'.status]) ∧
       t'.status.state = state) ∧
    ((ctrlUpdateTaskStatus ct state m ts).history =
        some (ct.history.getD [] ++ [ct.status]) ∧
       (ctrlUpdateTaskStatus ct state m ts).status =
        { state := state, timestamp := ts, message := m }) ∧
    ((cancelTaskWrite ct ts).history = ct.history ∧
       (cancelTaskWrite ct ts).status.state = TaskState.CANCELLED ∧
       (cancelTaskWrite ct ts).status.message = ct.status.message) := by
  have ht := updateTaskStatus_some ct state m arts ts t' h
  subst ht
  exact ⟨⟨rfl, rfl⟩, ⟨rfl, rfl⟩, ⟨rfl, rfl, rfl⟩⟩

/-- C1, witness for the amended theorem at a concrete input. -/
theorem c1_history_append_witness :
    (updateTaskStatus
        { id := "t", sessionId := none
          status := { state := TaskState.SUBMITTED, timestamp := 0, message := none }
          history := some [{ state := TaskState.SUBMITTED, timestamp := 0, message := none }]
          message := none, artifacts := none }
        TaskState.WORKING none none 1 =
      some
        { id := "t", sessionId := none
          status := { state := TaskState.WORKING, timestamp := 1, message := none }
          history := some [{ state := TaskState.SUBMITTED, timestamp := 0, message := none },
                           { state := TaskState.WORKING, timestamp := 1, message := none }]
          message := none, artifacts := none }) ∧
    (({ id := "t", sessionId := none
        status := { state := TaskState.WORKING, timestamp := 1, message := none }
        history := some [{ state := TaskState.SUBMITTED, timestamp := 0, message := none },
                         { state := TaskState.WORKING, timestamp := 1, message := none }]
        message := none, artifacts := none } : Task).history =
      some (({ id := "t", sessionId := none
               status := { state := TaskState.SUBMITTED, timestamp := 0, message := none }
               history := some [{ state := TaskState.SUBMITTED, timestamp := 0, message := none }]
               message := none, artifacts := none } : Task).history.getD [] ++
             [({ id := "t", sessionId := none
                 status := { state := TaskState.WORKING, timestamp := 1, message := none }
                 history := some [{ state := TaskState.SUBMITTED, timestamp := 0, message := none },
                                  { state := TaskState.WORKING, timestamp := 1, message := none }]
                 message := none, artifacts := none } : Task).status]) ∧
     True) :=
  ⟨by decide,
   (c1_history_append_amended _ TaskState.WORKING none none 1 _ (by decide)).1.1,
   trivial⟩

/-- C2, counterexample: a transition out of the terminal state COMPLETED
to WORKING is accepted by TaskProcessor.updateTaskStatus — the stored
task does not stay unchanged; there is no terminal-state guard, only the
state-or-progress dedup check. -/
theorem c2_terminal_transition_accepted :
    let ct : Task :=
      { id := "t", sessionId := none
        status := { state := TaskState.COMPLETED, timestamp := 0, message := none }
        history := some [{ state := TaskState.COMPLETED, timestamp := 0, message := none }]
        message := none, artifacts := none }
    isFinalState ct.status.state = true ∧
      updateTaskStatus ct TaskState.WORKING none none 1 ≠ none ∧
      (updateTaskStatus ct TaskState.WORKING none none 1).map
          (fun t => t.status.state) = some TaskState.WORKING ∧
      updateTaskStatus ct TaskState.WORKING none none 1 ≠ some ct := by
  decide

/-- C2, amended: an attempted transition out of a terminal state to a
DIFFERENT state is accepted and applied by updateTaskStatus (the new
status is written and appended to history); only an update repeating the
current state with unchanged progress text is suppressed. -/
theorem c2_terminal_amended (ct : Task) (state : TaskState)
    (m : Option Message) (arts : Option (List TaskArtifact)) (ts : Nat)
    (hfin : isFinalState ct.status.state = true)
    (hne : ct.status.state ≠ state) :
    updateTaskStatus ct state m arts ts =
      some { ct with
              status := { state := state, timestamp := ts, message := m }
              history := some (ct.history.getD [] ++
                [{ state := state, timestamp := ts, message := m }])
              artifacts := arts.or ct.artifacts } := by
  unfold updateTaskStatus
  have hbeq : (ct.status.state == state) = false := by
    simpa using hne
  simp [hbeq]

/-- C2, witness for the amended theorem at a concrete input. -/
theorem c2_terminal_amended_witness :
    (isFinalState TaskState.COMPLETED = true ∧
       TaskState.COMPLETED ≠ TaskState.WORKING) ∧
    updateTaskStatus
        { id := "t", sessionId := none
          status := { state := TaskState.COMPLETED, timestamp := 0, message := none }
          history := some [{ state := TaskState.COMPLETED, timestamp := 0, message := none }]
          message := none, artifacts := none }
        TaskState.WORKING none none 1 =
      some { id := "t", sessionId := none
             status := { state := TaskState.WORKING, timestamp := 1, message := none }
             history := some [{ state := TaskState.COMPLETED, timestamp := 0, message := none },
                              { state := TaskState.WORKING, timestamp := 1, message := none }]
             message := none, artifacts := none } :=
  ⟨⟨by decide, by decide⟩,
   c2_terminal_amended _ TaskState.WORKING none none 1 (by decide) (by decide)⟩

/-- C3: applying a status update whose state equals the task's current
state and whose message text equals the text of the last history entry's
message is a no-op: updateTaskStatus performs no store write, so the
store listener produces no push event and no artifact delivery reaches
any stream channel. -/
theorem c3_idempotent_update_noop (conns : List String) (ct : Task)
    (state : TaskState) (m : Option Message)
    (arts : Option (List TaskArtifact)) (ts : Nat)
    (hstate : state = ct.status.state)
    (htext : updMsgText m = lastHistoryText ct) :
    updateTaskStatus ct state m arts ts = none ∧
      processorUpdateEvents conns ct state m arts ts = ([], []) := by
  subst hstate
  have hnp : progressChangedB m (ct.history.getD []).getLast? = false := by
    unfold progressChangedB
    cases hm : m with
    | none => rfl
    | some mm =>
      cases hlp : (ct.history.getD []).getLast? with
      | none => rfl
      | some lp =>
        cases hmp : mm.parts with
        | none => simp [hmp]
        | some mparts =>
          cases hlm : lp.message with
          | none => simp [hmp, hlm]
          | some lpm =>
            cases hlpp : lpm.parts with
            | none => simp [hmp, hlm, hlpp]
            | some lpparts =>
              have heq : textOf mparts = textOf lpparts := by
                simpa [updMsgText, lastHistoryText, hm, hlp, hmp, hlm, hlpp]
                  using htext
              simp [hmp, hlm, hlpp, heq]
  have hu : updateTaskStatus ct ct.status.state m arts ts = none := by
    unfold updateTaskStatus
    simp [hnp]
  exact ⟨hu, by simp [processorUpdateEvents, hu]⟩

/-- C3, witness at a concrete input: repeating WORKING with the same
progress text is suppressed. -/
theorem c3_idempotent_update_witness :
    (TaskState.WORKING =
        ({ id := "t", sessionId := none
           status := { state := TaskState.WORKING, timestamp := 0
                       message := some (agentTextMessage "Generating audio... 10%") }
           history := some [{ state := TaskState.WORKING, timestamp := 0
                              message := some (agentTextMessage "Generating audio... 10%") }]
           message := none, artifacts := none } : Task).status.state ∧
       updMsgText (some (agentTextMessage "Generating audio... 10%")) =
        lastHistoryText
          { id := "t", sessionId := none
            status := { state := TaskState.WORKING, timestamp := 0
                        message := some (agentTextMessage "Generating audio... 10%") }
            history := some [{ state := TaskState.WORKING, timestamp := 0
                               message := some (agentTextMessage "Generating audio... 10%") }]
            message := none, artifacts := none }) ∧
    (updateTaskStatus
        { id := "t", sessionId := none
          status := { state := TaskState.WORKING, timestamp := 0
                      message := some (agentTextMessage "Generating audio... 10%") }
          history := some [{ state := TaskState.WORKING, timestamp := 0
                             message := some (agentTextMessage "Generating audio... 10%") }]
          message := none, artifacts := none }
        TaskState.WORKING (some (agentTextMessage "Generating audio... 10%")) none 5 = none ∧
     processorUpdateEvents ["chan-1"]
        { id := "t", sessionId := none
          status := { state := TaskState.WORKING, timestamp := 0
                      message := some (agentTextMessage "Generating audio... 10%") }
          history := some [{ state := TaskState.WORKING, timestamp := 0
                             message := some (agentTextMessage "Generating audio... 10%") }]
          message := none, artifacts := none }
        TaskState.WORKING (some (agentTextMessage "Generating audio... 10%")) none 5 = ([], [])) :=
  ⟨⟨rfl, by decide⟩,
   c3_idempotent_update_noop ["chan-1"] _ TaskState.WORKING
     (some (agentTextMessage "Generating audio... 10%")) none 5 rfl (by decide)⟩

/-- C6: for a store-observed status update of a task whose id has a
registered webhook, the listener emits exactly one event and notify
delivers it once to the registered callback: a completion event carrying
the final status and all artifacts exactly when the new state is
terminal, a status_update event exactly when it is non-terminal — never
both for the same update. -/
theorem c6_webhook_event_dichotomy (task : Task) (ts : Nat)
    (regs : List (String × String)) (reg : String × String)
    (hreg : regs.find? (fun r => r.fst == task.id) = some reg) :
    webhookDeliveries regs (storeListenerEvent task ts) =
      [(reg.snd, storeListenerEvent task ts)] ∧
    ((storeListenerEvent task ts).type = PushEventType.COMPLETION ↔
       isFinalState task.status.state = true) ∧
    (isFinalState task.status.state = true →
       (storeListenerEvent task ts).data.finalStatus = some task.status ∧
       (storeListenerEvent task ts).data.artifacts = task.artifacts) ∧
    (isFinalState task.status.state = false →
       (storeListenerEvent task ts).type = PushEventType.STATUS_UPDATE) := by
  have hid : (storeListenerEvent task ts).taskId = task.id := by
    unfold storeListenerEvent
    split <;> rfl
  refine ⟨?_, ?_, ?_, ?_⟩
  · unfold webhookDeliveries
    rw [hid, hreg]
  · cases hf : isFinalState task.status.state <;> simp [storeListenerEvent, hf]
  · intro hf
    simp [storeListenerEvent, hf]
  · intro hf
    simp [storeListenerEvent, hf]

/-- C6, witness: a COMPLETED task with one artifact and a registered
webhook receives exactly one completion event carrying its final status
and artifacts. -/
theorem c6_webhook_event_witness :
    ([("task-6", "http://callback.example/hook")].find?
        (fun r => r.fst ==
          ({ id := "task-6", sessionId := none
             status := { state := TaskState.COMPLETED, timestamp := 3, message := none }
             history := some [{ state := TaskState.COMPLETED, timestamp := 3, message := none }]
             message := none
             artifacts := some [{ parts := [], index := 0, append := none }] } : Task).id) =
      some ("task-6", "http://callback.example/hook")) ∧
    (webhookDeliveries [("task-6", "http://callback.example/hook")]
        (storeListenerEvent
          { id := "task-6", sessionId := none
            status := { state := TaskState.COMPLETED, timestamp := 3, message := none }
            history := some [{ state := TaskState.COMPLETED, timestamp := 3, message := none }]
            message := none
            artifacts := some [{ parts := [], index := 0, append := none }] } 4) =
      [("http://callback.example/hook",
        storeListenerEvent
          { id := "task-6", sessionId := none
            status := { state := TaskState.COMPLETED, timestamp := 3, message := none }
            history := some [{ state := TaskState.COMPLETED, timestamp := 3, message := none }]
            message := none
            artifacts := some [{ parts := [], index := 0, append := none }] } 4)]) :=
  ⟨by decide,
   (c6_webhook_event_dichotomy _ 4 [("task-6", "http://callback.example/hook")]
      ("task-6", "http://callback.example/hook") (by decide)).1⟩

/-- Helper: filtering the (channel, event) pairs built from a channel
list containing `c` exactly once keeps exactly one copy of the event. -/
theorem map_pair_filter {β : Type} (e : β) (c : String) :
    ∀ conns : List String, conns.count c = 1 →
      ((conns.map (fun ch => (ch, e))).filter (fun d => d.fst == c)).map Prod.snd = [e] := by
  intro conns
  induction conns with
  | nil => intro h; simp at h
  | cons ch rest ih =>
    intro h
    rw [List.count_cons] at h
    by_cases hch : ch = c
    · subst hch
      simp only [beq_self_eq_true, if_true] at h
      have hz : rest.count ch = 0 := by omega
      have hnm : ch ∉ rest := List.count_eq_zero.1 hz
      have hfil : (rest.map (fun x => (x, e))).filter (fun d => d.fst == ch) = [] := by
        apply List.filter_eq_nil_iff.2
        intro d hd
        rcases List.mem_map.1 hd with ⟨x, hx, rfl⟩
        simp only [beq_iff_eq]
        intro hEq
        exact hnm (hEq ▸ hx)
      simp [hfil]
    · have hbeq : (ch == c) = false := by simp [hch]
      rw [hbeq] at h
      simp only [Bool.false_eq_true, if_false] at h
      have hc : rest.count c = 1 := by omega
      have hih := ih hc
      simp only [List.map_cons, List.filter_cons, hbeq]
      simpa using hih

/-- Helper: a channel occurring exactly once in the connection set
receives, from the sendArtifacts double loop, exactly the batch's event
list. -/
theorem per_channel_deliveries (conns : List String) (c : String)
    (h : conns.count c = 1) (evs : List ArtifactEvent) :
    ((evs.flatMap (fun e => conns.map (fun ch => (ch, e)))).filter
        (fun d => d.fst == c)).map Prod.snd = evs := by
  induction evs with
  | nil => rfl
  | cons e rest ih =>
    simp only [List.flatMap_cons, List.filter_append, List.map_append, ih]
    rw [map_pair_filter e c conns h]
    rfl

/-- C7, counterexample: with a batch of two artifacts whose index fields
are [1, 0], the FIRST event of the batch (not the last artifact) carries
lastChunk = true and the SECOND (the last artifact) carries
lastChunk = false — the flag follows the index field, not the position
in the batch. -/
theorem c7_lastchunk_counterexample :
    artifactEventsFor "task-7"
        [{ parts := [], index := 1, append := none },
         { parts := [], index := 0, append := none }] =
      [{ id := "task-7", parts := [], index := 1, append := false, lastChunk := true },
       { id := "task-7", parts := [], index := 0, append := false, lastChunk := false }] ∧
    ([({ parts := [], index := 1, append := none } : TaskArtifact),
      { parts := [], index := 0, append := none }].length - 1 = 1) := by
  decide

/-- C7, amended: every channel subscribed (exactly once) to the task
receives one artifact event per artifact of the batch, in batch order;
each event carries the artifact's index, and its lastChunk flag is true
exactly when the artifact's INDEX FIELD equals batch length minus one
(which coincides with "is the last artifact" only when the index fields
match the positions). -/
theorem c7_artifact_events_amended (conns : List String) (c tid : String)
    (arts : List TaskArtifact) (h : conns.count c = 1) :
    ((sendArtifactsDeliveries conns tid arts).filter
        (fun d => d.fst == c)).map Prod.snd = artifactEventsFor tid arts ∧
    List.Forall₂ (fun (a : TaskArtifact) (e : ArtifactEvent) =>
        e.id = tid ∧ e.index = a.index ∧ e.append = a.append.getD false ∧
          (e.lastChunk = true ↔ a.index = arts.length - 1))
      arts (artifactEventsFor tid arts) := by
  constructor
  · exact per_channel_deliveries conns c h (artifactEventsFor tid arts)
  · unfold artifactEventsFor
    rw [List.forall₂_map_right_iff]
    apply List.forall₂_same.2
    intro a _
    exact ⟨rfl, rfl, rfl, by simp⟩

/-- C7, witness for the amended theorem at a concrete input: one channel,
a batch of two artifacts with position-consistent index fields. -/
theorem c7_artifact_events_witness :
    (["chan-7"].count "chan-7" = 1) ∧
    ((sendArtifactsDeliveries ["chan-7"] "task-7w"
        [{ parts := [], index := 0, append := none },
         { parts := [], index := 1, append := some true }]).filter
        (fun d => d.fst == "chan-7")).map Prod.snd =
      artifactEventsFor "task-7w"
        [{ parts := [], index := 0, append := none },
         { parts := [], index := 1, append := some true }] :=
  ⟨by decide,
   (c7_artifact_events_amended ["chan-7"] "chan-7" "task-7w"
      [{ parts := [], index := 0, append := none },
       { parts := [], index := 1, append := some true }] (by decide)).1⟩

/-- C8: the SSE error path for an invalid envelope delivers nothing to
the requester.  Its channel was never subscribed, so notifyError finds no
connection set containing it and returns without writing; the stream is
then closed empty, contradicting "an invalid request arriving over an SSE
connection still receives an error event before the stream is closed". -/
theorem c8_sse_error_stream_empty (conns : List (String × List String))
    (pid : Option String) (requester : String)
    (h : ∀ entry ∈ conns, requester ∉ entry.snd) :
    sseInvalidEnvelopeEvents conns pid requester = [] := by
  unfold sseInvalidEnvelopeEvents notifyErrorDeliveries
  cases hf : conns.find? (fun entry => entry.fst == pid.getD "unknown") with
  | none => rfl
  | some entry =>
    have hmem : entry ∈ conns := List.mem_of_find?_eq_some hf
    have hreq := h entry hmem
    have hfil : (entry.snd.map (fun ch =>
        (ch, ({ id := pid.getD "unknown", code := -32600
                message := "Invalid JSON-RPC 2.0 request" } : ErrorEvent)))).filter
          (fun d => d.fst == requester) = [] := by
      apply List.filter_eq_nil_iff.2
      intro d hd
      rcases List.mem_map.1 hd with ⟨x, hx, rfl⟩
      simp only [beq_iff_eq]
      intro hEq
      exact hreq (hEq ▸ hx)
    simp [hfil]

/-- C8, witness: with a fresh streaming service (no subscriptions at
all), the invalid-envelope SSE path produces zero events for the
requester. -/
theorem c8_sse_error_stream_empty_witness :
    (∀ entry ∈ ([] : List (String × List String)), "client-1" ∉ entry.snd) ∧
    sseInvalidEnvelopeEvents [] (some "some-task") "client-1" = [] :=
  ⟨by simp,
   c8_sse_error_stream_empty [] (some "some-task") "client-1" (by simp)⟩

/-- C4, counterexample: a request whose first part is a non-text data
part but whose second part is a non-empty text part satisfies the spec's
acceptance condition (`specAcceptsMessage`) yet is rejected with -32602
and performs no store write — only message.parts[0] is ever examined. -/
theorem c4_first_part_counterexample :
    specAcceptsMessage (some
      { role := "user"
        parts := some
          [{ type := "data", text := none, audioUrl := none, data := some "blob" },
           { type := "text", text := some "a fine song about rain"
             audioUrl := none, data := none }] }) = true ∧
    sendTask
        { jsonrpc := some "2.0", id := some (RpcId.num 1)
          method := some "tasks/send"
          params := some
            { taskId := none, sessionId := none
              message := some
                { role := "user"
                  parts := some
                    [{ type := "data", text := none, audioUrl := none, data := some "blob" },
                     { type := "text", text := some "a fine song about rain"
                       audioUrl := none, data := none }] }
              subscription := none } } "t-c4" =
      (SendOutcome.invalidParams, []) := by
  decide

/-- C4, amended: for a request that passed the envelope guard, creation
fails with -32602 (and performs no store or queue call) if and only if
the FIRST element of message.parts lacks a text field with non-empty
trimmed content; the part's type is not checked and later parts are never
examined, so a request whose first part is a non-text part is rejected
even when a later part holds valid text. -/
theorem c4_first_part_amended (r : JsonRpcRequest) (nid : String)
    (p : TaskSendParams) (hp : r.params = some p)
    (he : envelopeOk r = true) :
    ((sendTask r nid).fst = SendOutcome.invalidParams ↔
       firstPartTextValid p.message = false) ∧
    (firstPartTextValid p.message = false →
       sendTask r nid = (SendOutcome.invalidParams, [])) ∧
    (firstPartTextValid p.message = true →
       sendTask r nid =
         (SendOutcome.created nid,
          [Action.storeCreate nid, Action.enqueue nid])) := by
  unfold sendTask
  rw [hp, he]
  cases hv : firstPartTextValid p.message <;> simp [hv]

/-- C4, witness for the amended theorem: a first part whose text is all
whitespace is rejected with no store write. -/
theorem c4_first_part_witness :
    (({ jsonrpc := some "2.0", id := some (RpcId.num 2)
        method := some "tasks/send"
        params := some
          { taskId := none, sessionId := none
            message := some
              { role := "user"
                parts := some [{ type := "text", text := some "   "
                                 audioUrl := none, data := none }] }
            subscription := none } } : JsonRpcRequest).params = some
      { taskId := none, sessionId := none
        message := some
          { role := "user"
            parts := some [{ type := "text", text := some "   "
                             audioUrl := none, data := none }] }
        subscription := none } ∧
     envelopeOk
       { jsonrpc := some "2.0", id := some (RpcId.num 2)
         method := some "tasks/send"
         params := some
           { taskId := none, sessionId := none
             message := some
               { role := "user"
                 parts := some [{ type := "text", text := some "   "
                                  audioUrl := none, data := none }] }
             subscription := none } } = true) ∧
    sendTask
        { jsonrpc := some "2.0", id := some (RpcId.num 2)
          method := some "tasks/send"
          params := some
            { taskId := none, sessionId := none
              message := some
                { role := "user"
                  parts := some [{ type := "text", text := some "   "
                                   audioUrl := none, data := none }] }
              subscription := none } } "t-c4w" =
      (SendOutcome.invalidParams, []) :=
  ⟨⟨rfl, by decide⟩,
   (c4_first_part_amended _ "t-c4w" _ rfl (by decide)).2.1 (by decide)⟩

/-- A freshly created task (A2AController.createTask lines 431-440)
whose message holds a single text part with the given prompt: initial
status SUBMITTED, no history, no artifacts. -/
def mkPromptTask (p : String) : Task :=
  { id := "task-1", sessionId := none
    status := { state := TaskState.SUBMITTED, timestamp := 0, message := none }
    history := none
    message := some { role := "user"
                      parts := some [{ type := "text", text := some p
                                       audioUrl := none, data := none }] }
    artifacts := none }

/-- C5, counterexample: processed through TaskProcessor.processTask, a
task created with the empty prompt receives a single FAILED update (the
processor's validateTask throws before handleTask ever runs), not an
INPUT_REQUIRED one; and the 5-character prompt "short" receives TWO
updates, WORKING first, so INPUT_REQUIRED is not the first and only
update either. -/
theorem c5_prompt_counterexample :
    (processTaskWrites (mkPromptTask "") 1).map
        (fun l => l.map (fun t => t.status.state)) = some [TaskState.FAILED] ∧
    TaskState.FAILED ≠ TaskState.INPUT_REQUIRED ∧
    (processTaskWrites (mkPromptTask "short") 1).map
        (fun l => l.map (fun t => t.status.state)) =
      some [TaskState.WORKING, TaskState.INPUT_REQUIRED] := by
  decide

/-- C5, amended: any prompt whose trimmed length is strictly between 0
and 10 produces exactly two store writes, WORKING then INPUT_REQUIRED
with the "more detailed" message; the empty prompt instead produces the
single FAILED write "Task must contain a non-empty text prompt" (the
processor's validateTask throws before the WORKING update); only at the
handleTask generator level does the empty prompt yield the single
INPUT_REQUIRED "provide a prompt" update the scenario describes. -/
theorem c5_prompt_validation_amended (p : String)
    (h1 : 0 < (jsTrim p).length) (h2 : (jsTrim p).length < 10) :
    (processTaskWrites (mkPromptTask p) 1).map
        (fun l => l.map (fun t => (t.status.state, updMsgText t.status.message))) =
      some [(TaskState.WORKING, none),
            (TaskState.INPUT_REQUIRED,
             some "Please provide a more detailed description of the song. The current prompt is too short.")] ∧
    (processTaskWrites (mkPromptTask "") 1).map
        (fun l => l.map (fun t => (t.status.state, updMsgText t.status.message))) =
      some [(TaskState.FAILED, some "Task must contain a non-empty text prompt")] ∧
    handleTaskYields (mkPromptTask "") =
      some [{ state := TaskState.INPUT_REQUIRED
              message := some (agentTextMessage
                "Please provide a prompt for the song. No prompt was provided.")
              artifacts := none }] := by
  refine ⟨?_, by decide, by decide⟩
  have htrimne : (jsTrim p == "") = false := by
    rw [beq_eq_false_iff_ne]
    intro hEq
    rw [hEq] at h1
    simp at h1
  have hval : validateTask (mkPromptTask p) = Except.ok () := by
    simp [validateTask, mkPromptTask, isNonEmptyTextPart, h1]
  have hidea : taskIdea (mkPromptTask p) = p := by
    simp [taskIdea, mkPromptTask]
  have hvp : validatePrompt p =
      some { state := TaskState.INPUT_REQUIRED
             message := some (agentTextMessage
               "Please provide a more detailed description of the song. The current prompt is too short.")
             artifacts := none } := by
    simp [validatePrompt, htrimne, h2]
  have hhy : handleTaskYields (mkPromptTask p) =
      some [{ state := TaskState.INPUT_REQUIRED
              message := some (agentTextMessage
                "Please provide a more detailed description of the song. The current prompt is too short.")
              artifacts := none }] := by
    simp [handleTaskYields, hidea, hvp]
  simp only [processTaskWrites, hval, hhy]
  simp [applyYields, updateTaskStatus, progressChangedB, mkPromptTask,
        updMsgText, textOf, agentTextMessage]

/-- C5, witness for the amended theorem at the scenario's own prompt
"short". -/
theorem c5_prompt_validation_witness :
    (0 < (jsTrim "short").length ∧ (jsTrim "short").length < 10) ∧
    (processTaskWrites (mkPromptTask "short") 1).map
        (fun l => l.map (fun t => (t.status.state, updMsgText t.status.message))) =
      some [(TaskState.WORKING, none),
            (TaskState.INPUT_REQUIRED,
             some "Please provide a more detailed description of the song. The current prompt is too short.")] :=
  ⟨⟨by decide, by decide⟩,
   (c5_prompt_validation_amended "short" (by decide) (by decide)).1⟩

/-- C9: a valid sendTaskSubscribe request in SSE mode enqueues the same
fresh task id twice — once inside createTask and once again after the
stream subscription — while the webhook branch returns before the second
enqueue and enqueues exactly once; the two branches are exhaustive. -/
theorem c9_double_enqueue (r : JsonRpcRequest) (nid : String)
    (p : TaskSendParams) (hp : r.params = some p)
    (he : envelopeOk r = true)
    (hm : firstPartTextValid p.message = true) :
    ((sendTaskSubscribe r nid).fst = SubOutcome.sseOpen nid →
       (sendTaskSubscribe r nid).snd =
         [Action.storeCreate nid, Action.enqueue nid,
          Action.subscribeSse nid, Action.enqueue nid] ∧
       (sendTaskSubscribe r nid).snd.count (Action.enqueue nid) = 2) ∧
    ((sendTaskSubscribe r nid).fst = SubOutcome.webhookAck nid →
       (sendTaskSubscribe r nid).snd.count (Action.enqueue nid) = 1) ∧
    ((sendTaskSubscribe r nid).fst = SubOutcome.sseOpen nid ∨
       (sendTaskSubscribe r nid).fst = SubOutcome.webhookAck nid) := by
  unfold sendTaskSubscribe
  rw [hp, he]
  simp only [Bool.not_true, Bool.false_eq_true, if_false, hm]
  split
  · refine ⟨?_, ?_, Or.inr rfl⟩
    · intro hcontra
      simp at hcontra
    · intro _
      simp [List.count_cons]
  · refine ⟨?_, ?_, Or.inl rfl⟩
    · intro _
      refine ⟨rfl, ?_⟩
      simp [List.count_cons]
    · intro hcontra
      simp at hcontra

/-- C9, witness at a concrete valid SSE-mode request. -/
theorem c9_double_enqueue_witness :
    (({ jsonrpc := some "2.0", id := some (RpcId.num 9)
        method := some "tasks/sendSubscribe"
        params := some
          { taskId := none, sessionId := none
            message := some
              { role := "user"
                parts := some [{ type := "text", text := some "a song about rain and sun"
                                 audioUrl := none, data := none }] }
            subscription := none } } : JsonRpcRequest).params = some
      { taskId := none, sessionId := none
        message := some
          { role := "user"
            parts := some [{ type := "text", text := some "a song about rain and sun"
                             audioUrl := none, data := none }] }
        subscription := none }) ∧
    (sendTaskSubscribe
        { jsonrpc := some "2.0", id := some (RpcId.num 9)
          method := some "tasks/sendSubscribe"
          params := some
            { taskId := none, sessionId := none
              message := some
                { role := "user"
                  parts := some [{ type := "text", text := some "a song about rain and sun"
                                   audioUrl := none, data := none }] }
              subscription := none } } "t-c9").snd =
      [Action.storeCreate "t-c9", Action.enqueue "t-c9",
       Action.subscribeSse "t-c9", Action.enqueue "t-c9"] :=
  ⟨rfl,
   ((c9_double_enqueue _ "t-c9" _ rfl (by decide) (by decide)).1 (by decide)).1⟩

/-- C10: both endpoints reject any request whose id is falsy — 0, the
empty string, null or absent are all falsy — as an invalid envelope,
echoing id null with no store or queue call; and any request that gets
past the envelope guard to parameter validation necessarily has jsonrpc
exactly "2.0", a truthy id, a truthy method and present params. -/
theorem c10_falsy_id_rejected (r : JsonRpcRequest) (nid : String)
    (hid : idTruthy r.id = false) :
    sendTask r nid = (SendOutcome.invalidEnvelope none, []) ∧
    sendTaskSubscribe r nid = (SubOutcome.invalidEnvelope none, []) ∧
    (RpcId.truthy (RpcId.num 0) = false ∧
       RpcId.truthy (RpcId.str "") = false ∧
       RpcId.truthy RpcId.null = false ∧
       idTruthy none = false) ∧
    (∀ r' : JsonRpcRequest,
       (∀ eid, (sendTask r' nid).fst ≠ SendOutcome.invalidEnvelope eid) →
       r'.jsonrpc = some "2.0" ∧ idTruthy r'.id = true ∧
         strTruthy r'.method = true ∧ r'.params.isSome = true) := by
  have henv : envelopeOk r = false := by
    unfold envelopeOk
    simp [hid]
  have hecho : echoId r.id = none := by
    cases hi : r.id with
    | none => rfl
    | some x =>
      rw [hi] at hid
      simp only [idTruthy] at hid
      simp [echoId, hid]
  refine ⟨?_, ?_, ⟨rfl, by decide, rfl, rfl⟩, ?_⟩
  · unfold sendTask
    rw [henv, hecho]
    rfl
  · unfold sendTaskSubscribe
    rw [henv, hecho]
    rfl
  · intro r' hne
    by_cases hok : envelopeOk r' = true
    · unfold envelopeOk at hok
      have h1 := hok
      simp only [Bool.and_eq_true, beq_iff_eq] at h1
      exact ⟨h1.1.1.1, h1.1.1.2, h1.1.2, h1.2⟩
    · exfalso
      have hok' : envelopeOk r' = false := by
        cases h : envelopeOk r' with
        | true => exact absurd h hok
        | false => rfl
      apply hne (echoId r'.id)
      unfold sendTask
      rw [hok']
      rfl

/-- C10, witness: a request with the JSON-RPC-legal id 0 is rejected with
the id echoed as null. -/
theorem c10_falsy_id_witness :
    (idTruthy (some (RpcId.num 0)) = false) ∧
    sendTask
        { jsonrpc := some "2.0", id := some (RpcId.num 0)
          method := some "tasks/send"
          params := some
            { taskId := none, sessionId := none
              message := some
                { role := "user"
                  parts := some [{ type := "text", text := some "a song about rain"
                                   audioUrl := none, data := none }] }
              subscription := none } } "t-c10" =
      (SendOutcome.invalidEnvelope none, []) :=
  ⟨by decide,
   (c10_falsy_id_rejected _ "t-c10" (by decide)).1⟩

end SongAgent
